import Mathlib

/-!
Verification development for the DGX GPU Resource Manager
(gpu_manager.py).  The definitions below are a shallow embedding of the
source: Python string manipulation becomes Lean string manipulation,
the per-job / per-container / per-process loops become structural
recursions, Python exceptions caught by a handler become Option/Except,
and live OS queries (docker top, the process-tree awk pipeline,
ps -o user=) become an explicit environment of oracle functions fixed
for the cycle.
-/

/-!
Python string primitives are modelled by structural recursion over
character lists (rather than the library position-based functions) so
that every definition evaluates inside the kernel on concrete inputs.
-/

/-- Whether the first character list is an initial run of the second. -/
def leadingRunB : List Char → List Char → Bool
  | [], _ => true
  | _ :: _, [] => false
  | a :: as, b :: bs => a == b && leadingRunB as bs

/-- Whether the first character list occurs contiguously in the second. -/
def containsRunB (needle : List Char) : List Char → Bool
  | [] => needle.isEmpty
  | c :: rest => leadingRunB needle (c :: rest) || containsRunB needle rest

/-- Drop leading whitespace characters. -/
def dropLeadingWs : List Char → List Char
  | [] => []
  | c :: r => if c.isWhitespace then dropLeadingWs r else c :: r

/-- Python str.strip(): remove leading and trailing whitespace. -/
def pyStrip (s : String) : String :=
  String.mk (dropLeadingWs ((dropLeadingWs s.data.reverse).reverse))

/-- Accumulator loop of the whitespace tokenisation. -/
def splitWsAux : List Char → List Char → List (List Char)
  | [], acc => if acc.isEmpty then [] else [acc.reverse]
  | c :: rest, acc =>
    if c.isWhitespace then
      if acc.isEmpty then splitWsAux rest []
      else acc.reverse :: splitWsAux rest []
    else splitWsAux rest (c :: acc)

/-- Python str.split() with no separator (split on whitespace runs,
dropping empty fields), as used for squeue lines and scontrol tokens. -/
def pySplitWs (s : String) : List String :=
  (splitWsAux s.data []).map String.mk

/-- Python str.split(sep) over character lists.  The fuel argument
always suffices: every recursion step consumes at least one input
character, and the fuel starts one above the input length. -/
def splitOnFuel (sep : List Char) : Nat → List Char → List Char → List (List Char)
  | 0, s, acc => [acc.reverse ++ s]
  | _ + 1, [], acc => [acc.reverse]
  | fuel + 1, c :: rest, acc =>
    if leadingRunB sep (c :: rest) then
      acc.reverse :: splitOnFuel sep fuel (List.drop (sep.length - 1) rest) []
    else splitOnFuel sep fuel rest (c :: acc)

/-- Python str.split(sep) for a nonempty separator: non-overlapping
occurrences, scanned left to right, empty pieces kept. -/
def pySplitOn (s sep : String) : List String :=
  (splitOnFuel sep.data (s.data.length + 1) s.data []).map String.mk

/-- Decimal digit run evaluated left to right. -/
def digitsVal : List Char → Nat → Option Nat
  | [], acc => some acc
  | c :: r, acc => if c.isDigit then digitsVal r (acc * 10 + (c.toNat - 48)) else none

/-- A nonempty all-digit run as a number; none otherwise. -/
def decimalNat? : List Char → Option Nat
  | [] => none
  | cs => digitsVal cs 0

/-- Python int() on the strings that occur here: surrounding whitespace
stripped, optional sign, decimal digits; none where Python raises
ValueError. -/
def pyInt? (s : String) : Option Int :=
  match (pyStrip s).data with
  | '-' :: ds => (decimalNat? ds).map (fun n => -(n : Int))
  | '+' :: ds => (decimalNat? ds).map (fun n => (n : Int))
  | ds => (decimalNat? ds).map (fun n => (n : Int))

/-- Python range(start, end + 1) materialised as a list (empty when
end < start). -/
def rangeIncl (s e : Int) : List Int :=
  (List.range (e + 1 - s).toNat).map (fun i => s + i)

/-- The loop over the comma-separated parts of the IDX specification in
get_slurm_jobs (gpu_manager.py lines 104-112).  A part containing a dash
is unpacked as exactly two int() pieces; a ValueError there (non-numeric
piece, or a wrong number of dash-separated pieces) is not caught locally
and escapes to the per-job handler, modelled as Except.error.  A part
without a dash that fails int() hits the local except ValueError and is
skipped. -/
def gpuIndexParts : List String → List Int → Except Unit (List Int)
  | [], acc => .ok acc
  | p :: rest, acc =>
    if p.data.contains '-' then
      match pySplitOn p "-" with
      | [a, b] =>
        match pyInt? a, pyInt? b with
        | some s, some e => gpuIndexParts rest (acc ++ rangeIncl s e)
        | _, _ => .error ()
      | _ => .error ()
    else
      match pyInt? p with
      | some n => gpuIndexParts rest (acc ++ [n])
      | none => gpuIndexParts rest acc

/-- GPU index extraction from the scontrol output
(gpu_manager.py lines 101-112): when the marker "IDX:" occurs, the text
between its first occurrence and the next ")" is split on commas and fed
to the parts loop; without the marker the index list stays empty. -/
def extractGpuIndices (out : String) : Except Unit (List Int) :=
  match pySplitOn out "IDX:" with
  | _ :: seg :: _ =>
    gpuIndexParts (pySplitOn ((pySplitOn seg ")").headD "") ",") []
  | _ => .ok []

/-- WorkDir extraction (gpu_manager.py lines 115-117): the first
whitespace token after "WorkDir=".  Indexing [0] of an empty token list
raises, escaping to the per-job handler. -/
def extractWorkDir (out : String) : Except Unit String :=
  match pySplitOn out "WorkDir=" with
  | _ :: seg :: _ =>
    match pySplitWs seg with
    | w :: _ => .ok w
    | [] => .error ()
  | _ => .ok ""

/-- RunTime extraction and reformatting (gpu_manager.py lines 119-129):
the first whitespace token after "RunTime=" is split either as
D-HH:MM:SS or as HH:MM:SS; any unpacking mismatch raises ValueError,
escaping to the per-job handler. -/
def extractRunTime (out : String) : Except Unit String :=
  match pySplitOn out "RunTime=" with
  | _ :: seg :: _ =>
    match pySplitWs seg with
    | rt :: _ =>
      if rt.data.contains '-' then
        match pySplitOn rt "-" with
        | [days, t] =>
          match pySplitOn t ":" with
          | [h, m, s] =>
            .ok (days ++ " days, " ++ h ++ " hours, " ++ m ++ " minutes, " ++ s ++ " seconds")
          | _ => .error ()
        | _ => .error ()
      else
        match pySplitOn rt ":" with
        | [h, m, s] => .ok (h ++ " hours, " ++ m ++ " minutes, " ++ s ++ " seconds")
        | _ => .error ()
    | [] => .error ()
  | _ => .ok ""

/-- The per-job record built by get_slurm_jobs. -/
structure SlurmJob where
  user : String
  job_name : String
  state : String
  node_list : String
  gpu_indices : List Int
  workdir : String
  runtime : String
deriving DecidableEq, Repr

/-- Processing of one squeue line inside get_slurm_jobs
(gpu_manager.py lines 95-142).  The line must split into exactly five
whitespace tokens; the scontrol oracle maps a job id to the scontrol
show output for it; any exception in the body is caught by the per-job
handler, which logs and continues — the job then contributes nothing. -/
def processJob (scontrol : String → String) (line : String) : Option (String × SlurmJob) :=
  match pySplitWs line with
  | [job_id, user, job_name, state, node_list] =>
    let out := scontrol job_id
    match extractGpuIndices out, extractWorkDir out, extractRunTime out with
    | .ok gi, .ok wd, .ok rt =>
      some (job_id, { user := user, job_name := job_name, state := state,
                      node_list := node_list, gpu_indices := gi,
                      workdir := wd, runtime := rt })
    | _, _, _ => none
  | _ => none

/-- The squeue lines loop of get_slurm_jobs, as an association list in
listing order (the Python dict preserves insertion order, which is the
order analyze_gpu_usage later iterates in). -/
def get_slurm_jobs_lines (scontrol : String → String) (lines : List String) :
    List (String × SlurmJob) :=
  lines.filterMap (processJob scontrol)

/-- get_slurm_jobs (gpu_manager.py lines 89-146): squeue output is
stripped and split on newlines, then each line is processed
independently. -/
def get_slurm_jobs (squeueOut : String) (scontrol : String → String) :
    List (String × SlurmJob) :=
  get_slurm_jobs_lines scontrol (pySplitOn (pyStrip squeueOut) "\n")

/-- The docker inspect data consumed by get_container_info: the
container Name, the Source path of each entry of Mounts, and
HostConfig.Binds when the key is present. -/
structure InspectInfo where
  Name : String
  MountSources : List String
  Binds : Option (List String)
deriving DecidableEq, Repr

/-- The per-container record built by get_container_info. -/
structure ContainerInfo where
  name : String
  mount_path : String
  user : String
  binds : List String
  source : String
deriving DecidableEq, Repr

/-- The record construction of get_container_info
(gpu_manager.py lines 76-82).  With no mounts, mount_path and source are
empty and user is the "unknown" sentinel; with a first mount, user is
element 2 of the source path split on "/" — when that index does not
exist the IndexError is caught by the per-container handler and the
container contributes nothing. -/
def containerEntry (info : InspectInfo) : Option ContainerInfo :=
  match info.MountSources with
  | [] => some { name := info.Name, mount_path := "", user := "unknown",
                 binds := info.Binds.getD [], source := "" }
  | src :: _ =>
    match (pySplitOn src "/").get? 2 with
    | some u => some { name := info.Name, mount_path := src, user := u,
                       binds := info.Binds.getD [], source := src }
    | none => none

/-- get_container_info (gpu_manager.py lines 65-87) over the listed
container ids: blank ids are skipped, a failed docker inspect (none) is
skipped, and a record-construction exception is skipped; every surviving
container yields one ContainerInfo. -/
def get_container_info (containerList : List (String × Option InspectInfo)) :
    List (String × ContainerInfo) :=
  containerList.filterMap (fun x =>
    if x.1 = "" then none
    else
      match x.2 with
      | none => none
      | some info => (containerEntry info).map (fun c => (x.1, c)))

/-- The live-OS oracles used during one analysis cycle: docker top
output per container id, the process-tree membership test of
check_pid_belongs_to_slurm_job, and the ps-based process-owner lookup of
get_process_user (none when the lookup fails). -/
structure Env where
  dockerTop : String → String
  treeMatch : Int → String → Bool
  processUser : Int → Option String

/-- Python substring membership: str(pid) in output. -/
def substrB (needle hay : String) : Bool :=
  containsRunB needle.toList hay.toList

/-- The container-membership loop of analyze_gpu_usage
(gpu_manager.py lines 244-251): the first container whose docker top
output contains the decimal pid string as a substring claims the
process; the loop breaks there. -/
def findContainerLoop (env : Env) (pid : Int) :
    List (String × ContainerInfo) → Option (String × ContainerInfo)
  | [] => none
  | c :: rest =>
    if substrB (toString pid) (env.dockerTop c.1) then some c
    else findContainerLoop env pid rest

/-- The identity-confirmation test of analyze_gpu_usage
(gpu_manager.py lines 259-267): container user against job user when
containerized, OS-level process owner against job user when bare metal
(a failed owner lookup returns none and never equals a user string). -/
def userMatch (env : Env) (pid : Int) (ci : Option ContainerInfo) (job : SlurmJob) : Bool :=
  match ci with
  | some c => c.user == job.user
  | none => env.processUser pid == some job.user

/-- The SLURM attribution loop of analyze_gpu_usage
(gpu_manager.py lines 256-268): candidates in listing order; on a
process-tree match the user identity is checked; the first job passing
both wins and the loop breaks; otherwise the loop continues. -/
def findSlurmJob (env : Env) (pid : Int) (ci : Option ContainerInfo) :
    List (String × SlurmJob) → Option String
  | [] => none
  | (job_id, job) :: rest =>
    if env.treeMatch pid job_id then
      match ci with
      | some c =>
        if c.user == job.user then some job_id
        else findSlurmJob env pid ci rest
      | none =>
        if env.processUser pid == some job.user then some job_id
        else findSlurmJob env pid ci rest
    else findSlurmJob env pid ci rest

/-- The combined acceptance condition of the attribution loop, stated
as a single predicate for the first-match characterisation. -/
def acceptJob (env : Env) (pid : Int) (ci : Option ContainerInfo) (x : String × SlurmJob) : Bool :=
  env.treeMatch pid x.1 && userMatch env pid ci x.2

/-- The status string of analyze_gpu_usage line 270, with Python
truthiness of the optional job id (None and the empty string are both
falsy). -/
def slurm_status (o : Option String) : String :=
  match o with
  | some j => if j ≠ "" then "SLURM & belongs to Jobid " ++ j else "Non-SLURM"
  | none => "Non-SLURM"

/-- gpu_specific_jobs (gpu_manager.py lines 233-237): the jobs whose
gpu_indices contain this device index, in listing order. -/
def gpuSpecificJobs (gpu_id : Int) (jobs : List (String × SlurmJob)) :
    List (String × SlurmJob) :=
  jobs.filter (fun x => x.2.gpu_indices.contains gpu_id)

/-- The outcome of the per-process body of analyze_gpu_usage
(gpu_manager.py lines 240-281) for one (gpu_id, pid). -/
structure Verdict where
  container : Option (String × ContainerInfo)
  jobId : Option String
  status : String
  killed : Bool
deriving Repr

/-- The per-process classification of analyze_gpu_usage: container
membership, candidate restriction to this GPU, the attribution loop,
the status string, and whether kill_non_slurm_process is invoked
(exactly when the status is "Non-SLURM", line 272). -/
def classifyProcess (env : Env) (jobs : List (String × SlurmJob))
    (containers : List (String × ContainerInfo)) (gpu_id : Int) (pid : Int) : Verdict :=
  let ci := findContainerLoop env pid containers
  let gj := gpuSpecificJobs gpu_id jobs
  let sj := findSlurmJob env pid (ci.map Prod.snd) gj
  let st := slurm_status sj
  { container := ci, jobId := sj, status := st, killed := st == "Non-SLURM" }

/-- The outcome of one kill_non_slurm_process run: the success log
entry written (with its forced marker), or the error path that appends
an error message instead. -/
inductive KillOutcome where
  | terminated : Bool → KillOutcome
  | errorLogged : KillOutcome
deriving DecidableEq, Repr

/-- Observable events of kill_non_slurm_process, in program order:
signal sends, the fixed sleep, the liveness re-check, the single append
of the success log record (carrying the forced marker), and the append
of an error message on the exception path. -/
inductive KillEvent where
  | gracefulSignal : Int → KillEvent
  | sleepSecs : Nat → KillEvent
  | livenessCheck : Int → KillEvent
  | forceSignal : Int → KillEvent
  | logWrite : Int → Bool → KillEvent
  | errorWrite : Int → KillEvent
deriving DecidableEq, Repr

/-- Recognizer for the success-log append (the KillRecord). -/
def isKillRecord : KillEvent → Bool
  | .logWrite _ _ => true
  | _ => false

/-- The outside world as seen by one kill_non_slurm_process run:
whether the graceful sudo kill exits 0 (false when the process has
already vanished: kill reports "No such process" and check=True
raises), whether psutil.pid_exists holds after the grace window, and
whether the forced sudo kill -9 exits 0. -/
structure KillEnv where
  gracefulOk : Bool
  aliveAfterGrace : Bool
  forceOk : Bool
deriving DecidableEq, Repr

/-- kill_non_slurm_process (gpu_manager.py lines 167-210): graceful
kill with check=True, sleep(5), pid_exists re-check, forced kill -9
with check=True only if still alive, then one append of the success log
(whose text gains the "Force kill was required" line exactly when the
forced branch ran); any raised CalledProcessError lands in the handler,
which appends an error message instead. -/
def kill_non_slurm_process (env : KillEnv) (pid : Int) : List KillEvent × KillOutcome :=
  if env.gracefulOk then
    if env.aliveAfterGrace then
      if env.forceOk then
        ([.gracefulSignal pid, .sleepSecs 5, .livenessCheck pid, .forceSignal pid,
          .logWrite pid true], .terminated true)
      else
        ([.gracefulSignal pid, .sleepSecs 5, .livenessCheck pid, .forceSignal pid,
          .errorWrite pid], .errorLogged)
    else
      ([.gracefulSignal pid, .sleepSecs 5, .livenessCheck pid, .logWrite pid false],
       .terminated false)
  else
    ([.gracefulSignal pid, .errorWrite pid], .errorLogged)

/-- analyze_gpu_usage (gpu_manager.py lines 213-324): the whole cycle
body runs inside a catch-all handler that prints the fatal error and
returns normally.  The argument abstracts the try block: the lines it
prints, or the exception message it raises. -/
def analyze_gpu_usage_run : Except String (List String) → Except String (List String)
  | .ok msgs => .ok msgs
  | .error e => .ok ["Fatal error in analyze_gpu_usage: " ++ e]

/-- The __main__ guard (gpu_manager.py lines 326-332): sys.exit(1) runs
only when an exception escapes analyze_gpu_usage; otherwise the
interpreter exits 0. -/
def script_exit_code (body : Except String (List String)) : Nat :=
  match analyze_gpu_usage_run body with
  | .ok _ => 0
  | .error _ => 1

/-! Concrete cycle fixtures used to evaluate the embedding at specific
inputs. -/

/-- An environment where the tree test always succeeds and the process
owner is alice. -/
def envW : Env :=
  { dockerTop := fun _ => "", treeMatch := fun _ _ => true,
    processUser := fun _ => some "alice" }

/-- A scontrol oracle giving every job GPU index 0 and well-formed
WorkDir and RunTime fields. -/
def scW : String → String :=
  fun _ => "GRES=gpu(IDX:0) WorkDir=/home/alice RunTime=00:00:01"

/-- A one-job squeue listing. -/
def sqW : String := "1 alice train RUNNING node1"

/-- A two-job squeue listing whose first job has a malformed GPU range
part in its index specification. -/
def sqC3 : String := "1 alice train RUNNING node1\n2 bob job2 RUNNING node1"

/-- The scontrol oracle for sqC3: job 1 carries the malformed spec
0,abc-4; job 2 is well-formed. -/
def scC3 : String → String :=
  fun j =>
    if j = "1" then "GRES=gpu(IDX:0,abc-4) WorkDir=/home/alice RunTime=00:01:02"
    else "GRES=gpu(IDX:0) WorkDir=/home/bob RunTime=00:01:02"

/-- A container record for fixtures. -/
def ciA : ContainerInfo :=
  { name := "/a", mount_path := "/home/ann/x", user := "ann",
    binds := [], source := "/home/ann/x" }

/-- A second container record for fixtures. -/
def ciB : ContainerInfo :=
  { name := "/b", mount_path := "/home/bea/x", user := "bea",
    binds := [], source := "/home/bea/x" }

/-- A docker inspect result with one mount under /home/ann. -/
def insC9 : InspectInfo :=
  { Name := "/a", MountSources := ["/home/ann/x"], Binds := none }

/-- An environment where every docker top output lists pid 5000, so
every container claims that pid. -/
def envC4 : Env :=
  { dockerTop := fun _ => "UID PID CMD root 5000 python",
    treeMatch := fun _ _ => false, processUser := fun _ => none }

/-- An environment whose docker top output lists pid 123 only; the
decimal string of pid 12 occurs inside it as a substring. -/
def envC10 : Env :=
  { dockerTop := fun _ => "root 123 0.0 python train.py",
    treeMatch := fun _ _ => false, processUser := fun _ => none }

/-! Helper lemmas shared by the claim theorems. -/

/-- The attribution loop is the first-match search for the combined
tree-membership-and-identity predicate. -/
theorem findSlurmJob_eq_findFirst (env : Env) (pid : Int) (ci : Option ContainerInfo)
    (l : List (String × SlurmJob)) :
    findSlurmJob env pid ci l = (l.find? (acceptJob env pid ci)).map Prod.fst := by
  induction l with
  | nil => rfl
  | cons x rest ih =>
    obtain ⟨jid, job⟩ := x
    cases ht : env.treeMatch pid jid with
    | false =>
      cases ci with
      | none => simp [findSlurmJob, List.find?, acceptJob, ht, ih]
      | some c => simp [findSlurmJob, List.find?, acceptJob, ht, ih]
    | true =>
      cases ci with
      | none =>
        cases hu : env.processUser pid == some job.user with
        | false => simp [findSlurmJob, List.find?, acceptJob, userMatch, ht, hu, ih]
        | true => simp [findSlurmJob, List.find?, acceptJob, userMatch, ht, hu]
      | some c =>
        cases hu : c.user == job.user with
        | false => simp [findSlurmJob, List.find?, acceptJob, userMatch, ht, hu, ih]
        | true => simp [findSlurmJob, List.find?, acceptJob, userMatch, ht, hu]

/-- The container-membership loop is the first-match search for the
substring test over docker top output. -/
theorem findContainerLoop_eq_findFirst (env : Env) (pid : Int)
    (cs : List (String × ContainerInfo)) :
    findContainerLoop env pid cs
      = cs.find? (fun c => substrB (toString pid) (env.dockerTop c.1)) := by
  induction cs with
  | nil => rfl
  | cons c rest ih =>
    cases hc : substrB (toString pid) (env.dockerTop c.1) with
    | false => simp [findContainerLoop, List.find?, hc, ih]
    | true => simp [findContainerLoop, List.find?, hc]

/-- Every token emitted by the whitespace tokenisation loop is a
nonempty character run. -/
theorem splitWsAux_mem_ne_nil :
    ∀ (s acc t : List Char), t ∈ splitWsAux s acc → t ≠ [] := by
  intro s
  induction s with
  | nil =>
    intro acc t h
    rw [splitWsAux] at h
    by_cases ha : acc.isEmpty
    · simp [ha] at h
    · rw [if_neg ha] at h
      rw [List.mem_singleton] at h
      subst h
      simp only [ne_eq, List.reverse_eq_nil_iff]
      simpa [List.isEmpty_iff] using ha
  | cons c rest ih =>
    intro acc t h
    rw [splitWsAux] at h
    by_cases hw : c.isWhitespace
    · rw [if_pos hw] at h
      by_cases ha : acc.isEmpty
      · rw [if_pos ha] at h
        exact ih [] t h
      · rw [if_neg ha] at h
        rw [List.mem_cons] at h
        cases h with
        | inl he =>
          subst he
          simp only [ne_eq, List.reverse_eq_nil_iff]
          simpa [List.isEmpty_iff] using ha
        | inr hm => exact ih [] t hm
    · rw [if_neg hw] at h
      exact ih (c :: acc) t h

/-- Every member of a whitespace tokenisation is a nonempty string. -/
theorem pySplitWs_mem_ne_empty (line j : String) (h : j ∈ pySplitWs line) : j ≠ "" := by
  rw [pySplitWs, List.mem_map] at h
  obtain ⟨t, ht, rfl⟩ := h
  have htne := splitWsAux_mem_ne_nil line.data [] t ht
  intro he
  exact htne (congrArg String.data he)

/-- Every key produced by get_slurm_jobs is a nonempty string: it is a
whitespace-split token of a squeue line. -/
theorem get_slurm_jobs_key_ne_empty (sq : String) (sc : String → String)
    (j : String) (job : SlurmJob) (h : (j, job) ∈ get_slurm_jobs sq sc) : j ≠ "" := by
  rw [get_slurm_jobs, get_slurm_jobs_lines] at h
  rw [List.mem_filterMap] at h
  obtain ⟨line, _, hp⟩ := h
  rw [processJob] at hp
  split at hp
  · rename_i job_id user job_name state node_list hsplit
    dsimp only at hp
    split at hp
    · rename_i gi wd rt hgi hwd hrt
      have hkey : j = job_id := by
        have := congrArg Prod.fst (Option.some.inj hp)
        simpa using this.symm
      subst hkey
      have hmem : j ∈ pySplitWs line := by rw [hsplit]; exact List.mem_cons_self _ _
      exact pySplitWs_mem_ne_empty line j hmem
    · exact absurd hp (by simp)
  · exact absurd hp (by simp)

/-- The status string for a nonempty attributed job id is never the
Non-SLURM marker. -/
theorem slurm_status_some_ne (j : String) (hj : j ≠ "") :
    slurm_status (some j) ≠ "Non-SLURM" := by
  rw [slurm_status, if_pos hj]
  intro h
  have hl := congrArg String.length h
  rw [String.length_append] at hl
  have h1 : ("SLURM & belongs to Jobid ").length = 25 := rfl
  have h2 : ("Non-SLURM").length = 9 := rfl
  omega

/-! Claim theorems. -/

/-- C1 counterexample: the claim says a process that has already exited
when reclamation is attempted is treated as TERMINATED with
forced = false and never yields an error outcome.  The code disagrees:
the graceful sudo kill runs with check=True, so a vanished process makes
it raise CalledProcessError and the handler appends an error message —
the outcome is the error path, no TERMINATED outcome and no KillRecord.
Shown at pid 8000 with the graceful send failing. -/
theorem c1_counterexample :
    ((kill_non_slurm_process ⟨false, false, false⟩ 8000).2
        == KillOutcome.terminated false) = false
    ∧ (kill_non_slurm_process ⟨false, false, false⟩ 8000).2 = KillOutcome.errorLogged
    ∧ (kill_non_slurm_process ⟨false, false, false⟩ 8000).1.filter isKillRecord = []
    ∧ KillEvent.errorWrite 8000 ∈ (kill_non_slurm_process ⟨false, false, false⟩ 8000).1 := by
  decide

/-- C1 (amended): when the graceful signal send fails because the
process has already vanished, kill_non_slurm_process takes the
exception path: the run consists of the failed graceful send followed by
the append of an error message, the outcome is the logged error, and no
KillRecord is produced. -/
theorem c1_vanished_process_errors (env : KillEnv) (pid : Int)
    (h : env.gracefulOk = false) :
    kill_non_slurm_process env pid
      = ([.gracefulSignal pid, .errorWrite pid], .errorLogged) := by
  obtain ⟨g, a, f⟩ := env
  cases g with
  | false => rfl
  | true => exact Bool.noConfusion h

/-- C1 witness. -/
theorem c1_witness :
    kill_non_slurm_process ⟨false, true, true⟩ 8000
      = ([.gracefulSignal 8000, .errorWrite 8000], .errorLogged) :=
  c1_vanished_process_errors ⟨false, true, true⟩ 8000 rfl

/-- C2: a process attributed to a scheduler job (jobId = some j, the
SCHEDULER_OWNED / CONTAINER_SCHEDULER_OWNED outcomes) never has its kill
flag set: kill_non_slurm_process runs exactly when the status string is
"Non-SLURM", and an attributed job id coming out of get_slurm_jobs is a
nonempty squeue token, so the status string differs from it. -/
theorem c2_no_kill_for_attributed (env : Env) (sq : String) (sc : String → String)
    (containers : List (String × ContainerInfo)) (gpu_id pid : Int) (j : String)
    (h : (classifyProcess env (get_slurm_jobs sq sc) containers gpu_id pid).jobId = some j) :
    (classifyProcess env (get_slurm_jobs sq sc) containers gpu_id pid).killed = false := by
  simp only [classifyProcess] at h ⊢
  rw [h]
  have hne : j ≠ "" := by
    rw [findSlurmJob_eq_findFirst] at h
    obtain ⟨x, hx, hx1⟩ := Option.map_eq_some'.mp h
    have hmem := List.mem_of_find?_eq_some hx
    rw [gpuSpecificJobs, List.mem_filter] at hmem
    obtain ⟨a, b⟩ := x
    simp only at hx1
    subst hx1
    exact get_slurm_jobs_key_ne_empty sq sc _ b hmem.1
  exact beq_eq_false_iff_ne.mpr (slurm_status_some_ne j hne)

/-- C2 witness. -/
theorem c2_witness :
    (classifyProcess envW (get_slurm_jobs sqW scW) [] 0 5000).killed = false :=
  c2_no_kill_for_attributed envW sqW scW [] 0 5000 "1" (by decide)

/-- C3 counterexample: the claim says a job with the malformed GPU index
spec "0,abc-4" still gets an entry with an empty index set.  In the
code the ValueError from int("abc") in the range branch is not caught
locally; it escapes to the per-job handler, which skips the whole job —
the collection has no entry at all for job 1, while job 2 is collected
normally. -/
theorem c3_counterexample :
    (get_slurm_jobs sqC3 scC3).lookup "1" = none
    ∧ get_slurm_jobs sqC3 scC3
        = [("2", { user := "bob", job_name := "job2", state := "RUNNING",
                   node_list := "node1", gpu_indices := [0], workdir := "/home/bob",
                   runtime := "00 hours, 01 minutes, 02 seconds" })] := by
  exact ⟨by decide, by decide⟩

/-- C3 (amended): a job whose GPU index specification makes the index
extraction raise (a malformed range part) is omitted from the
collection: its line contributes nothing, and the remaining lines are
processed exactly as if the malformed line were absent. -/
theorem c3_malformed_range_skips_job (sc : String → String)
    (line job_id user job_name state node_list : String) (pre post : List String)
    (hsplit : pySplitWs line = [job_id, user, job_name, state, node_list])
    (herr : extractGpuIndices (sc job_id) = .error ()) :
    processJob sc line = none
    ∧ get_slurm_jobs_lines sc (pre ++ line :: post) = get_slurm_jobs_lines sc (pre ++ post) := by
  have hnone : processJob sc line = none := by
    rw [processJob, hsplit]
    dsimp only
    rw [herr]
  refine ⟨hnone, ?_⟩
  rw [get_slurm_jobs_lines, get_slurm_jobs_lines, List.filterMap_append,
    List.filterMap_append, List.filterMap_cons, hnone]

/-- C3 witness. -/
theorem c3_witness :
    processJob scC3 "1 alice train RUNNING node1" = none
    ∧ get_slurm_jobs_lines scC3
        ([] ++ "1 alice train RUNNING node1" :: ["2 bob job2 RUNNING node1"])
      = get_slurm_jobs_lines scC3 ([] ++ ["2 bob job2 RUNNING node1"]) :=
  c3_malformed_range_skips_job scC3 "1 alice train RUNNING node1"
    "1" "alice" "train" "RUNNING" "node1" [] ["2 bob job2 RUNNING node1"] rfl rfl

/-- C4 counterexample: the claim says a pid claimed by more than one
container is treated as unclaimed (no container metadata).  In the code
the membership loop breaks at the first container whose docker top
output contains the pid string: with both containers claiming pid 5000,
the process is attributed to the first one, not to none. -/
theorem c4_counterexample :
    substrB (toString (5000 : Int)) (envC4.dockerTop "c1") = true
    ∧ substrB (toString (5000 : Int)) (envC4.dockerTop "c2") = true
    ∧ findContainerLoop envC4 5000 [("c1", ciA), ("c2", ciB)] = some ("c1", ciA) := by
  decide

/-- C4 (amended): when several containers claim a pid, no inconsistency
is signalled: the process is attributed to the first container in
listing order whose docker top output contains the pid string, and the
remaining claimants are never examined. -/
theorem c4_first_claimant_wins (env : Env) (pid : Int)
    (c : String × ContainerInfo) (rest : List (String × ContainerInfo))
    (h : substrB (toString pid) (env.dockerTop c.1) = true) :
    findContainerLoop env pid (c :: rest) = some c := by
  simp [findContainerLoop, h]

/-- C4 witness. -/
theorem c4_witness :
    findContainerLoop envC4 5000 [("c1", ciB), ("c2", ciA)] = some ("c1", ciB) :=
  c4_first_claimant_wins envC4 5000 ("c1", ciB) [("c2", ciA)] (by decide)

/-- C5: the attributed job is the first candidate (in scheduler-listing
order, restricted to this GPU) passing both the process-tree membership
test and the ownership identity check — container user against job user
when containerized, OS-level process owner against job user when bare
metal; when no candidate passes both, the status is Non-SLURM (the
ORPHAN outcome) and the process is reclaimed. -/
theorem c5_first_job_satisfying_both_wins (env : Env) (jobs : List (String × SlurmJob))
    (containers : List (String × ContainerInfo)) (gpu_id pid : Int) :
    (classifyProcess env jobs containers gpu_id pid).jobId
      = ((gpuSpecificJobs gpu_id jobs).find?
          (acceptJob env pid ((findContainerLoop env pid containers).map Prod.snd))).map Prod.fst
    ∧ (((gpuSpecificJobs gpu_id jobs).find?
          (acceptJob env pid ((findContainerLoop env pid containers).map Prod.snd))) = none →
        (classifyProcess env jobs containers gpu_id pid).status = "Non-SLURM"
        ∧ (classifyProcess env jobs containers gpu_id pid).killed = true) := by
  constructor
  · simp only [classifyProcess]
    exact findSlurmJob_eq_findFirst env pid _ _
  · intro hnone
    simp only [classifyProcess]
    rw [findSlurmJob_eq_findFirst, hnone]
    exact ⟨by decide, by decide⟩

/-- C5 witness. -/
theorem c5_witness :
    (classifyProcess envW (get_slurm_jobs sqW scW) [] 0 5000).jobId
      = ((gpuSpecificJobs 0 (get_slurm_jobs sqW scW)).find?
          (acceptJob envW 5000 ((findContainerLoop envW 5000 []).map Prod.snd))).map Prod.fst :=
  (c5_first_job_satisfying_both_wins envW (get_slurm_jobs sqW scW) [] 0 5000).1

/-- C6: a process attributed to a scheduler job is attributed to a job
whose gpu_indices contain the process's device index — the candidate
set is restricted to jobs scheduled on this GPU before the attribution
loop runs, so no cross-device attribution is possible. -/
theorem c6_owner_job_on_device (env : Env) (jobs : List (String × SlurmJob))
    (containers : List (String × ContainerInfo)) (gpu_id pid : Int) (j : String)
    (h : (classifyProcess env jobs containers gpu_id pid).jobId = some j) :
    ∃ job, (j, job) ∈ jobs ∧ gpu_id ∈ job.gpu_indices := by
  simp only [classifyProcess] at h
  rw [findSlurmJob_eq_findFirst] at h
  obtain ⟨x, hx, hx1⟩ := Option.map_eq_some'.mp h
  have hmem := List.mem_of_find?_eq_some hx
  rw [gpuSpecificJobs, List.mem_filter] at hmem
  obtain ⟨a, b⟩ := x
  simp only at hx1
  subst hx1
  refine ⟨b, hmem.1, ?_⟩
  have hc := hmem.2
  simp only [List.contains] at hc
  exact List.elem_iff.mp hc

/-- C6 witness. -/
theorem c6_witness :
    ∃ job, ("1", job) ∈ get_slurm_jobs sqW scW ∧ (0 : Int) ∈ job.gpu_indices :=
  c6_owner_job_on_device envW (get_slurm_jobs sqW scW) [] 0 5000 "1" (by decide)

/-- C7: reclamation first sends the graceful signal, then performs the
single fixed 5-second wait, then re-checks liveness; the forced signal
is sent exactly when the process is still alive after the grace window;
and a successful termination appends exactly one KillRecord, whose
forced marker holds exactly when the forced signal was sent. -/
theorem c7_reclamation_protocol (env : KillEnv) (pid : Int) :
    ((kill_non_slurm_process env pid).1.head? = some (.gracefulSignal pid))
    ∧ (env.gracefulOk = true →
        (kill_non_slurm_process env pid).1.take 3
          = [.gracefulSignal pid, .sleepSecs 5, .livenessCheck pid])
    ∧ ((KillEvent.forceSignal pid ∈ (kill_non_slurm_process env pid).1)
        ↔ env.gracefulOk = true ∧ env.aliveAfterGrace = true)
    ∧ (∀ f, (kill_non_slurm_process env pid).2 = .terminated f →
        (kill_non_slurm_process env pid).1.filter isKillRecord = [.logWrite pid f]
        ∧ (f = true ↔ KillEvent.forceSignal pid ∈ (kill_non_slurm_process env pid).1)) := by
  obtain ⟨g, a, fo⟩ := env
  cases g <;> cases a <;> cases fo <;>
    simp [kill_non_slurm_process, isKillRecord]

/-- C7 witness. -/
theorem c7_witness :
    (kill_non_slurm_process ⟨true, false, false⟩ 6000).1.take 3
      = [.gracefulSignal 6000, .sleepSecs 5, .livenessCheck 6000] :=
  (c7_reclamation_protocol ⟨true, false, false⟩ 6000).2.1 rfl

/-- C8 counterexample: the claim says an unrecoverable top-level
failure terminates the run with non-zero status.  In the code the
catch-all inside analyze_gpu_usage prints the fatal error and returns
normally, so the __main__ guard never sees it and the interpreter exits
0 even on total collector exhaustion. -/
theorem c8_counterexample :
    script_exit_code (.error "FatalError: no inventory could be collected") = 0
    ∧ analyze_gpu_usage_run (.error "FatalError: no inventory could be collected")
        = .ok ["Fatal error in analyze_gpu_usage: FatalError: no inventory could be collected"] := by
  exact ⟨rfl, rfl⟩

/-- C8 (amended): partial per-process failures never cause a non-zero
exit, and neither does any fatal failure: the catch-all handler inside
analyze_gpu_usage converts every exception of the cycle into a printed
message and returns normally, so the script always exits 0; the
sys.exit(1) branch of the __main__ guard is unreachable for exceptions
raised inside the cycle. -/
theorem c8_always_exits_zero (body : Except String (List String)) :
    script_exit_code body = 0
    ∧ (∀ e, body = .error e →
        analyze_gpu_usage_run body = .ok ["Fatal error in analyze_gpu_usage: " ++ e]) := by
  cases body with
  | ok msgs => exact ⟨rfl, by intro e he; cases he⟩
  | error e =>
    refine ⟨rfl, ?_⟩
    intro e' he
    cases he
    rfl

/-- C8 witness. -/
theorem c8_witness :
    analyze_gpu_usage_run (.error "boom")
      = .ok ["Fatal error in analyze_gpu_usage: " ++ "boom"] :=
  (c8_always_exits_zero (.error "boom")).2 "boom" rfl

/-- C9: every container record produced by the collector carries an
owner user string (never absent, by construction); it is element 2 of
the first mount source path split on "/" (the segment "carol" of
"/home/carol/...") when at least one mount exists, and the sentinel
"unknown" when the container has no mounts. -/
theorem c9_owner_user_positional (ls : List (String × Option InspectInfo))
    (cid : String) (c : ContainerInfo)
    (h : (cid, c) ∈ get_container_info ls) :
    ∃ info, (cid, some info) ∈ ls
      ∧ ((info.MountSources = [] ∧ c.user = "unknown")
         ∨ ∃ src rest, info.MountSources = src :: rest
             ∧ (pySplitOn src "/").get? 2 = some c.user) := by
  rw [get_container_info, List.mem_filterMap] at h
  obtain ⟨⟨cid', oi⟩, hmem, hf⟩ := h
  dsimp only at hf
  split at hf
  · exact absurd hf (by simp)
  · cases oi with
    | none => exact absurd hf (by simp)
    | some info =>
      simp only at hf
      obtain ⟨c', hc', heq⟩ := Option.map_eq_some'.mp hf
      injection heq with h1 h2
      subst h1
      subst h2
      refine ⟨info, hmem, ?_⟩
      rw [containerEntry] at hc'
      split at hc'
      · rename_i hms
        left
        refine ⟨hms, ?_⟩
        rw [← Option.some.inj hc']
      · rename_i src tl hms
        split at hc'
        · rename_i u hu
          right
          refine ⟨src, tl, hms, ?_⟩
          rw [hu, ← Option.some.inj hc']
        · exact absurd hc' (by simp)

/-- C9 witness. -/
theorem c9_witness :
    ∃ info, ("c1", some info) ∈ [("c1", some insC9)]
      ∧ ((info.MountSources = [] ∧ ciA.user = "unknown")
         ∨ ∃ src rest, info.MountSources = src :: rest
             ∧ (pySplitOn src "/").get? 2 = some ciA.user) :=
  c9_owner_user_positional [("c1", some insC9)] "c1" ciA (by decide)

/-- C10: container membership of a process is a substring test — the
process is attributed to the first container (in runtime listing order)
whose docker top output contains the decimal pid string anywhere as a
substring.  Consequently misattribution from digit-string inclusion is
possible: pid 12 is attributed to a container whose listing only shows
pid 123 (the token list of its docker top output does not contain
"12"). -/
theorem c10_substring_first_match :
    (∀ (env : Env) (pid : Int) (cs : List (String × ContainerInfo)),
        findContainerLoop env pid cs
          = cs.find? (fun c => substrB (toString pid) (env.dockerTop c.1)))
    ∧ findContainerLoop envC10 12 [("cA", ciA)] = some ("cA", ciA)
    ∧ (pySplitWs (envC10.dockerTop "cA")).contains "12" = false := by
  refine ⟨findContainerLoop_eq_findFirst, by decide, by decide⟩
